import Mathlib

/-!
# StickyNotes — note state synchronization layer, verified model

A shallow embedding of `src/js/index.js` of the StickyNotes repository:
the note registry (create / load / delete handlers), the stacking-order
counter (`zIndexValue`), and the drag/edit session handlers
(`mousedown` / `mousemove` / `mouseup` / `input` listeners).

The persistent store adapter (`DatabaseManager`, file `src/js/indexedDB.js`)
is not part of the repository snapshot; its operations are modelled from the
specification (see the doc comments on the `Store` operations).  Wherever a
store call can fail, the handler models take the outcome as an explicit
parameter, mirroring the `try`/`catch` structure of the source.

JavaScript numbers that can be `NaN` (results of `parseInt` on an unset
style property) are modelled as `Option Int`, with `none` standing for `NaN`.
-/

/-- A pixel position `{x, y}` as used in note records. -/
structure Position where
  x : Int
  y : Int
deriving DecidableEq, Repr

/-- A persisted note record: `{ id, position, zIndex, color, text }`
(the layout built by the `addInput` click listener, plus the store-assigned
`id`). -/
structure NoteRecord where
  id : Nat
  position : Position
  zIndex : Int
  color : String
  text : String
deriving DecidableEq, Repr

/-- The record the `addInput` click listener passes to `createData`
(everything but the id, which the store assigns). -/
structure NoteInput where
  color : String
  text : String
  position : Position
  zIndex : Int
deriving DecidableEq, Repr

/-- A DOM note widget, reduced to the fields the handlers read and write:
the parsed `note-<id>` element id (`none` when the id attribute was never
assigned), the inline `style.left` / `style.top` / `style.zIndex` values
(`none` when the style property was never set, so that `parseInt` on it
yields `NaN`), and the header background color. -/
structure NoteWidget where
  domId : Option Nat
  styleLeft : Option Int
  styleTop : Option Int
  styleZIndex : Option Int
  headerColor : String
deriving DecidableEq, Repr

/-- Modelled from the spec: the persistent store adapter
(`DatabaseManager` in the missing `src/js/indexedDB.js`) keeps one durable
table of note records keyed by an auto-assigned integer id; `nextId` is the
auto-increment counter (IndexedDB `autoIncrement` keys start at 1). -/
structure Store where
  nextId : Nat
  records : List NoteRecord
deriving DecidableEq, Repr

/-- Modelled from the spec: `createData(record)` assigns a new unique id,
persists the record and returns the assigned id; ids are monotonically
increasing and never reused. -/
def Store.createData (s : Store) (d : NoteInput) : Store × Nat :=
  ({ nextId := s.nextId + 1
     records := s.records ++
       [{ id := s.nextId, position := d.position, zIndex := d.zIndex
          color := d.color, text := d.text }] },
   s.nextId)

/-- Modelled from the spec: `readAllData()` returns every persisted record
(order unspecified; the model returns them in insertion order). -/
def Store.readAllData (s : Store) : List NoteRecord :=
  s.records

/-- A partial-field payload for `updateData`, as the handlers build it:
only the supplied fields are present. -/
structure UpdateFields where
  position : Option Position := none
  zIndex : Option Int := none
  color : Option String := none
  text : Option String := none
deriving DecidableEq, Repr

/-- Modelled from the spec: `updateData(id, partialFields)` merges the given
fields into the existing record; fields not supplied are preserved. -/
def mergeFields (r : NoteRecord) (f : UpdateFields) : NoteRecord :=
  { r with
    position := f.position.getD r.position
    zIndex := f.zIndex.getD r.zIndex
    color := f.color.getD r.color
    text := f.text.getD r.text }

/-- Modelled from the spec: the successful path of `updateData(id, fields)`
merges the fields into the record identified by `id`. -/
def Store.updateData (s : Store) (id : Nat) (f : UpdateFields) : Store :=
  { s with records := s.records.map fun r => if r.id = id then mergeFields r f else r }

/-- Modelled from the spec: the successful path of `deleteData(id)` removes
the record permanently. -/
def Store.deleteData (s : Store) (id : Nat) : Store :=
  { s with records := s.records.filter fun r => r.id ≠ id }

/-- The in-memory application state the handlers in `index.js` touch:
the global `zIndexValue` counter (initialised to 1), the store, and the
children of `<main>` (the note widgets, in append order). -/
structure AppState where
  zIndexValue : Int
  store : Store
  dom : List NoteWidget
deriving DecidableEq, Repr

/-- The initial state: `zIndexValue = 1`, empty store, empty document. -/
def app0 : AppState :=
  { zIndexValue := 1, store := { nextId := 1, records := [] }, dom := [] }

/-- The `noteData` object the `addInput` click listener builds:
`{ color, text: '', position: {x: 0, y: 0}, zIndex: zIndexValue }`. -/
def buildNoteData (z : Int) (color : String) : NoteInput :=
  { color := color, text := "", position := { x := 0, y := 0 }, zIndex := z }

/-- The widget the `addInput` click listener appends to `<main>`.
On createData success the element id is set to `note-<assigned id>` and
`style.zIndex` to the current counter; on failure (caught and logged) the
`newNote.id = ...` and `newNote.style.zIndex = ...` lines are never reached,
so the widget is appended with no id and no z-index.  `style.left` and
`style.top` are never set by this listener. -/
def createdWidget (st : AppState) (color : String) (succeed : Bool) : NoteWidget :=
  if succeed then
    { domId := some st.store.nextId, styleLeft := none, styleTop := none
      styleZIndex := some st.zIndexValue, headerColor := color }
  else
    { domId := none, styleLeft := none, styleTop := none
      styleZIndex := none, headerColor := color }

/-- The `addInput` click listener (lines 106-148 of `index.js`): builds the
widget, tries `createData`; on success assigns the returned id and the
current `zIndexValue` to the widget and increments the counter; on failure
the `catch` only logs.  Either way the widget is appended to `<main>`.
The store outcome is the `succeed` parameter. -/
def createNote (st : AppState) (color : String) (succeed : Bool) : AppState :=
  if succeed then
    let res := st.store.createData (buildNoteData st.zIndexValue color)
    { zIndexValue := st.zIndexValue + 1
      store := res.1
      dom := st.dom ++ [createdWidget st color true] }
  else
    { st with dom := st.dom ++ [createdWidget st color false] }

/-- A raw note object as read back from the store at startup; every field
except the key may be absent (`undefined`). -/
structure RawNote where
  id : Nat
  position : Option Position
  zIndex : Option Int
  color : Option String
  text : Option String
deriving DecidableEq, Repr

/-- The sort key used by `loadExistingNotes`: `a.zIndex || 0`
(an absent `zIndex` reads as 0). -/
def sortKey (n : RawNote) : Int :=
  n.zIndex.getD 0

/-- The widget `createNoteFromDatabase(noteData)` (lines 55-100) rebuilds:
position, z-index, color and text are restored only when present — note
that the JavaScript truthiness tests also skip a stored z-index of 0 and
an empty color string. -/
def loadedWidget (noteData : RawNote) : NoteWidget :=
  { domId := some noteData.id
    styleLeft := noteData.position.map Position.x
    styleTop := noteData.position.map Position.y
    styleZIndex :=
      match noteData.zIndex with
      | some z => if z ≠ 0 then some z else none
      | none => none
    headerColor := (noteData.color.filter fun c => c ≠ "").getD "" }

/-- The counter update in `createNoteFromDatabase` (line 71):
`zIndexValue = Math.max(zIndexValue, noteData.zIndex + 1)`, guarded by the
truthiness of `noteData.zIndex` (skipped when absent or 0). -/
def cstep (z : Int) (noteData : RawNote) : Int :=
  match noteData.zIndex with
  | some k => if k ≠ 0 then max z (k + 1) else z
  | none => z

/-- `createNoteFromDatabase(noteData)` (lines 55-100): rebuilds the widget,
bumps the global counter, and appends the widget to `<main>`.  The state
threaded through is `(zIndexValue, children of main)`. -/
def createNoteFromDatabase (acc : Int × List NoteWidget) (noteData : RawNote) :
    Int × List NoteWidget :=
  (cstep acc.1 noteData, acc.2 ++ [loadedWidget noteData])

/-- `loadExistingNotes` (lines 31-48): sorts the records ascending by
`(a.zIndex || 0) - (b.zIndex || 0)` and runs `createNoteFromDatabase` on
each in order.  `z` is the value of the global `zIndexValue` when the load
runs (1 at startup). -/
def loadExistingNotes (z : Int) (notes : List RawNote) : Int × List NoteWidget :=
  (notes.mergeSort fun a b => decide (sortKey a ≤ sortKey b)).foldl
    createNoteFromDatabase (z, [])

/-- The maximum `stackOrder` seen over an input set, an absent field read
as 0, as the spec words it (`max(stackOrder seen)` with missing treated
as 0). -/
def maxStackOrder (notes : List RawNote) : Int :=
  notes.foldl (fun m n => max m (sortKey n)) 0

/-- The seeding formula as the spec words it: `max(stackOrder seen) + 1`
with floor 1. -/
def specSeed (notes : List RawNote) : Int :=
  max 1 (maxStackOrder notes + 1)

/-- The transient drag session: the globals `cursor = {x, y}` and
`note = { dom, x, y }` set by the mousedown listener.  A `some` session
corresponds to `note.dom != null`. -/
structure DragSession where
  widget : NoteWidget
  noteX : Int
  noteY : Int
  cursorX : Int
  cursorY : Int
deriving DecidableEq, Repr

/-- The argument pair of the `updateData` call issued by the mouseup
listener: the parsed note id, `position: {x: parseInt(style.left),
y: parseInt(style.top)}` and `zIndex: parseInt(style.zIndex)` — each
`parseInt` of an unset style property is `NaN`, modelled as `none`. -/
structure DragWrite where
  noteId : Option Nat
  posX : Option Int
  posY : Option Int
  zIndex : Option Int
deriving DecidableEq, Repr

/-- The mousedown listener (lines 178-201): stores the cursor position and
the note's `getBoundingClientRect()` corner (`rect`, an external layout
query, passed as a parameter), sets the widget's `style.zIndex` to the
current counter and increments the counter.  It issues no store call. -/
def mousedown (w : NoteWidget) (rect cursorPos : Position) (z : Int) :
    DragSession × Int × List DragWrite :=
  ({ widget := { w with styleZIndex := some z }
     noteX := rect.x, noteY := rect.y
     cursorX := cursorPos.x, cursorY := cursorPos.y },
   z + 1, [])

/-- The mousemove listener (lines 207-226) with a drag in progress: sets
`style.left` / `style.top` to the origin corner plus the distance from the
drag-start cursor to the current cursor.  It issues no store call. -/
def mousemove (s : DragSession) (cursorPos : Position) : DragSession × List DragWrite :=
  ({ s with widget :=
      { s.widget with
        styleLeft := some (s.noteX + (cursorPos.x - s.cursorX))
        styleTop := some (s.noteY + (cursorPos.y - s.cursorY)) } },
   [])

/-- A sequence of mousemove events, collecting the store writes each issues. -/
def runMoves (s : DragSession) : List Position → DragSession × List DragWrite
  | [] => (s, [])
  | c :: cs =>
      let r1 := mousemove s c
      let r2 := runMoves r1.1 cs
      (r2.1, r1.2 ++ r2.2)

/-- The payload of the single `updateData` call in the mouseup listener:
`parseInt` of the current inline styles (`NaN` = `none` when unset). -/
def mouseupWrite (s : DragSession) : DragWrite :=
  { noteId := s.widget.domId
    posX := s.widget.styleLeft
    posY := s.widget.styleTop
    zIndex := s.widget.styleZIndex }

/-- The mouseup listener (lines 232-257): if a drag is in progress it issues
one `updateData` (whose failure is caught and only logged — `storeOk` does
not change the control flow that follows); in every case `note.dom = null`
runs afterwards, returning the machine to Idle. -/
def mouseup (drag : Option DragSession) (storeOk : Bool) :
    Option DragSession × List DragWrite :=
  match drag, storeOk with
  | some s, _ => (none, [mouseupWrite s])
  | none, _ => (none, [])

/-- A whole drag session: mousedown on widget `w`, a list of mousemove
cursor positions, then mouseup.  Returns the final drag state, the counter
after the session, and every store write issued during the session. -/
def runDragSession (w : NoteWidget) (rect cursorPos : Position)
    (moves : List Position) (z : Int) (storeOk : Bool) :
    Option DragSession × Int × List DragWrite :=
  let r0 := mousedown w rect cursorPos z
  let r1 := runMoves r0.1 moves
  let r2 := mouseup (some r1.1) storeOk
  (r2.1, r0.2.1, r0.2.2 ++ r1.2 ++ r2.2)

/-- The delete click listener (lines 154-168): parses the id from the
`note-<id>` attribute, awaits `deleteData`, and only after that await
succeeds does `note.remove()` run; on failure the `catch` logs and the
widget is left in the document.  The store outcome is the `succeed`
parameter. -/
def deleteClick (st : AppState) (noteId : Nat) (succeed : Bool) : AppState :=
  if succeed then
    { st with
      store := st.store.deleteData noteId
      dom := st.dom.filter fun w => w.domId ≠ some noteId }
  else
    st

/-- The partial payload `{ text }` built by the input listener. -/
def textUpdateFields (text : String) : UpdateFields :=
  { text := some text }

/-- The input listener (lines 263-276): issues `updateData(noteId, { text })`
carrying only the text field; a failure is caught and logged, leaving the
store unchanged. -/
def inputHandler (st : AppState) (noteId : Nat) (text : String) (succeed : Bool) :
    AppState :=
  if succeed then
    { st with store := st.store.updateData noteId (textUpdateFields text) }
  else
    st

/-- The store/app error taxonomy of the spec. -/
inductive StoreError where
  | storeUnavailable
  | readError
  | writeError
  | notFound
deriving DecidableEq, Repr

/-- `loadExistingNotes` wraps its whole body in `try`/`catch`: a
`readAllData` failure is logged and the state is left unchanged. -/
def loadExistingNotesCaught (readResult : Except StoreError (List RawNote))
    (z : Int) : Int × List NoteWidget :=
  match readResult with
  | .ok notes => loadExistingNotes z notes
  | .error _ => (z, [])

/-- `initDatabase` (lines 16-25): obtains the singleton manager, awaits
`open()` with no `try`/`catch` of its own — so an open failure propagates
out of `initDatabase`, and the top-level call on line 279 has no catch
either — then awaits `loadExistingNotes`, which cannot throw. -/
def initDatabase (openResult : Except StoreError Unit)
    (readResult : Except StoreError (List RawNote)) (z : Int) :
    Except StoreError (Int × List NoteWidget) :=
  match openResult with
  | .error e => .error e
  | .ok _ => .ok (loadExistingNotesCaught readResult z)

/-- One registry intent for the stacking-order trace: a createNote click
(with its store outcome) or a drag-start (`bringToFront`) on some widget. -/
inductive Op where
  | create (color : String) (succeed : Bool)
  | bringToFront (w : NoteWidget) (rect cursorPos : Position)

/-- Run one intent; besides the new state, report the stackOrder and the id
the intent assigned (`none` when nothing was assigned: a failed create
assigns neither, a drag-start assigns a stackOrder but no new id). -/
def traceStep (st : AppState) : Op → AppState × (Option Int × Option Nat)
  | .create color succeed =>
      (createNote st color succeed,
       ((createdWidget st color succeed).styleZIndex,
        (createdWidget st color succeed).domId))
  | .bringToFront w rect cursorPos =>
      let r := mousedown w rect cursorPos st.zIndexValue
      ({ st with zIndexValue := r.2.1 }, (r.1.widget.styleZIndex, none))

/-- Run a sequence of intents, listing what each assigned. -/
def runTrace (st : AppState) : List Op → List (Option Int × Option Nat)
  | [] => []
  | op :: ops =>
      let r := traceStep st op
      r.2 :: runTrace r.1 ops

/-! ## Counter seeding at load (C4) -/

/-- The widget component of the load fold does not influence the counter
component, which is the fold of `cstep` alone. -/
lemma foldl_createNoteFromDatabase_fst (l : List RawNote) :
    ∀ (z : Int) (ws : List NoteWidget),
      (l.foldl createNoteFromDatabase (z, ws)).1 = l.foldl cstep z := by
  induction l with
  | nil => intro z ws; rfl
  | cons n l ih =>
      intro z ws
      simp only [List.foldl_cons]
      exact ih (cstep z n) (ws ++ [loadedWidget n])

/-- Right commutativity of the max-of-sort-key step (for permutation
invariance). -/
instance : RightCommutative fun (m : Int) (n : RawNote) => max m (sortKey n) :=
  ⟨fun b a c => by omega⟩

/-- `maxStackOrder` is invariant under permutation of the input set. -/
lemma maxStackOrder_perm {l1 l2 : List RawNote} (h : l1.Perm l2) :
    maxStackOrder l1 = maxStackOrder l2 :=
  h.foldl_eq 0

/-- Folding max-of-sort-key from any nonnegative seed. -/
lemma foldl_max_sortKey (l : List RawNote) :
    ∀ a : Int, 0 ≤ a →
      l.foldl (fun m n => max m (sortKey n)) a = max a (maxStackOrder l) := by
  induction l with
  | nil =>
      intro a ha
      simp only [List.foldl_nil, maxStackOrder]
      omega
  | cons n l ih =>
      intro a ha
      have h0 : (0 : Int) ≤ max a (sortKey n) := le_trans ha (le_max_left _ _)
      have h1 : (0 : Int) ≤ max 0 (sortKey n) := le_max_left _ _
      simp only [List.foldl_cons, maxStackOrder] at *
      rw [ih _ h0, ih _ h1]
      omega

/-- Closed form of the counter fold: starting from any counter value at
least 1 (its initial value), the load leaves it at
`max(start, max(stackOrder seen) + 1)`. -/
lemma foldl_cstep_closed (l : List RawNote) :
    ∀ z : Int, 1 ≤ z → l.foldl cstep z = max z (maxStackOrder l + 1) := by
  induction l with
  | nil =>
      intro z hz
      simp only [List.foldl_nil, maxStackOrder]
      omega
  | cons n l ih =>
      intro z hz
      have hz2 : 1 ≤ cstep z n := by
        unfold cstep
        rcases n.zIndex with _ | k
        · exact hz
        · by_cases hk : k = 0 <;> simp [hk] <;> omega
      have hms : maxStackOrder (n :: l) = max (max 0 (sortKey n)) (maxStackOrder l) := by
        simp only [maxStackOrder, List.foldl_cons]
        exact foldl_max_sortKey l _ (le_max_left _ _)
      simp only [List.foldl_cons]
      rw [ih _ hz2, hms]
      unfold cstep sortKey
      rcases n.zIndex with _ | k
      · simp only [Option.getD_none]
        omega
      · by_cases hk : k = 0 <;> simp [hk, Option.getD_some] <;> omega

/-- A raw record with no stackOrder field at all. -/
def rawBare : RawNote :=
  { id := 7, position := none, zIndex := none, color := none, text := none }

/-- The two-note reload input of the spec scenario: ids 1 and 2 with
stackOrder 1 and 2. -/
def rawPair : List RawNote :=
  [{ id := 1, position := some { x := 0, y := 0 }, zIndex := some 1
     color := some "#ff0000", text := some "" },
   { id := 2, position := some { x := 0, y := 0 }, zIndex := some 2
     color := some "#00ff00", text := some "" }]

/-- **C4**: loading seeds the stacking counter to `max(stackOrder seen) + 1`
with floor 1, a missing stackOrder field read as 0: for every input set the
counter after `loadExistingNotes` (run at startup, when `zIndexValue = 1`)
equals the spec formula; an empty input yields 1, a single record with the
field missing yields 1, and the two-note reload (stackOrder 1 and 2)
yields 3. -/
theorem load_seeds_counter_to_max_plus_one :
    (∀ notes : List RawNote, (loadExistingNotes 1 notes).1 = specSeed notes) ∧
    (loadExistingNotes 1 []).1 = 1 ∧
    (loadExistingNotes 1 [rawBare]).1 = 1 ∧
    (loadExistingNotes 1 rawPair).1 = 3 := by
  have main : ∀ notes : List RawNote, (loadExistingNotes 1 notes).1 = specSeed notes := by
    intro notes
    unfold loadExistingNotes specSeed
    rw [foldl_createNoteFromDatabase_fst, foldl_cstep_closed _ _ (le_refl 1),
      maxStackOrder_perm (List.mergeSort_perm notes _)]
  refine ⟨main, ?_, ?_, ?_⟩
  · rw [main]; decide
  · rw [main]; decide
  · rw [main]; decide

/-! ## Drag sessions (C2, C6, C8) -/

/-- A mousemove sequence issues no store writes. -/
lemma runMoves_writes (moves : List Position) :
    ∀ s : DragSession, (runMoves s moves).2 = [] := by
  induction moves with
  | nil => intro s; rfl
  | cons c cs ih =>
      intro s
      simp only [runMoves]
      rw [ih]
      rfl

/-- Mousemove leaves everything but the dragged widget's `style.left` and
`style.top` unchanged. -/
lemma runMoves_frame (moves : List Position) :
    ∀ s : DragSession,
      (runMoves s moves).1.noteX = s.noteX ∧
      (runMoves s moves).1.noteY = s.noteY ∧
      (runMoves s moves).1.cursorX = s.cursorX ∧
      (runMoves s moves).1.cursorY = s.cursorY ∧
      (runMoves s moves).1.widget.domId = s.widget.domId ∧
      (runMoves s moves).1.widget.styleZIndex = s.widget.styleZIndex := by
  induction moves with
  | nil => intro s; exact ⟨rfl, rfl, rfl, rfl, rfl, rfl⟩
  | cons c cs ih =>
      intro s
      simp only [runMoves]
      exact ih ((mousemove s c).1)

/-- After at least one mousemove, the dragged widget's inline position is
the origin corner plus the distance from the drag-start cursor to the last
cursor position seen. -/
lemma runMoves_last (moves : List Position) :
    ∀ (s : DragSession) (last : Position), moves.getLast? = some last →
      (runMoves s moves).1.widget.styleLeft =
        some (s.noteX + (last.x - s.cursorX)) ∧
      (runMoves s moves).1.widget.styleTop =
        some (s.noteY + (last.y - s.cursorY)) := by
  induction moves with
  | nil => intro s last h; cases h
  | cons c cs ih =>
      intro s last h
      cases cs with
      | nil =>
          simp only [List.getLast?_singleton, Option.some.injEq] at h
          subst h
          exact ⟨rfl, rfl⟩
      | cons d ds =>
          have hlast : (d :: ds).getLast? = some last := by
            simpa [List.getLast?_cons_cons] using h
          simp only [runMoves]
          exact ih ((mousemove s (c : Position)).1) last hlast

/-- **C2** counterexample: a drag with zero dragMove events on a freshly
created note — whose `style.left` / `style.top` were never set — persists
`parseInt("") = NaN` (modelled `none`), not the origin position `(0,0)`:
the claim's zero-move clause fails on the code. -/
theorem dragEnd_zero_moves_persists_NaN_cex :
    ((runDragSession (createdWidget app0 "#00ff00" true) { x := 0, y := 0 }
        { x := 10, y := 10 } [] 2 true).2.2.map DragWrite.posX = [none]) ∧
    ([none] : List (Option Int)) ≠ [some 0] := by
  exact ⟨rfl, by decide⟩

/-- **C2** (amended): for a drag with at least one dragMove, the single
position persisted at drag-end is the origin corner plus the total cursor
delta (last cursor minus drag-start cursor); a zero-move drag instead
persists `parseInt` of the widget's pre-drag inline style (so `NaN` for a
widget never positioned); and the spec scenario holds: from the empty
store, `createNote("#00ff00")` then a drag of note 1 from cursor (10,10)
moved once to (15,15) persists position (5,5) with stackOrder 2. -/
theorem dragEnd_persists_origin_plus_delta
    (w : NoteWidget) (rect cursorPos : Position) (moves : List Position)
    (z : Int) (storeOk : Bool) (last : Position)
    (h : moves.getLast? = some last) :
    ((runDragSession w rect cursorPos moves z storeOk).2.2.map DragWrite.posX =
       [some (rect.x + (last.x - cursorPos.x))] ∧
     (runDragSession w rect cursorPos moves z storeOk).2.2.map DragWrite.posY =
       [some (rect.y + (last.y - cursorPos.y))]) ∧
    (runDragSession w rect cursorPos [] z storeOk).2.2 =
      [{ noteId := w.domId, posX := w.styleLeft, posY := w.styleTop
         zIndex := some z }] ∧
    (runDragSession (createdWidget app0 "#00ff00" true) { x := 0, y := 0 }
        { x := 10, y := 10 } [{ x := 15, y := 15 }]
        (createNote app0 "#00ff00" true).zIndexValue true).2.2 =
      [{ noteId := some 1, posX := some 5, posY := some 5, zIndex := some 2 }] := by
  refine ⟨?_, rfl, rfl⟩
  obtain ⟨h1, h2⟩ := runMoves_last moves (mousedown w rect cursorPos z).1 last h
  simp only [runDragSession, mouseup, mouseupWrite, runMoves_writes,
    List.nil_append, List.append_nil, List.map_cons, List.map_nil]
  rw [h1, h2]
  exact ⟨rfl, rfl⟩

/-- **C2** witness: the amended theorem at the spec scenario input. -/
theorem dragEnd_persists_origin_plus_delta_witness :
    ((runDragSession (createdWidget app0 "#00ff00" true) { x := 0, y := 0 }
        { x := 10, y := 10 } [{ x := 15, y := 15 }] 2 true).2.2.map DragWrite.posX =
       [some ((0 : Int) + (15 - 10))] ∧
     (runDragSession (createdWidget app0 "#00ff00" true) { x := 0, y := 0 }
        { x := 10, y := 10 } [{ x := 15, y := 15 }] 2 true).2.2.map DragWrite.posY =
       [some ((0 : Int) + (15 - 10))]) ∧
    (runDragSession (createdWidget app0 "#00ff00" true) { x := 0, y := 0 }
        { x := 10, y := 10 } [] 2 true).2.2 =
      [{ noteId := some 1, posX := none, posY := none, zIndex := some 2 }] ∧
    (runDragSession (createdWidget app0 "#00ff00" true) { x := 0, y := 0 }
        { x := 10, y := 10 } [{ x := 15, y := 15 }]
        (createNote app0 "#00ff00" true).zIndexValue true).2.2 =
      [{ noteId := some 1, posX := some 5, posY := some 5, zIndex := some 2 }] :=
  dragEnd_persists_origin_plus_delta (createdWidget app0 "#00ff00" true)
    { x := 0, y := 0 } { x := 10, y := 10 } [{ x := 15, y := 15 }] 2 true
    { x := 15, y := 15 } rfl

/-- **C6**: a drag session issues exactly one store write, the `updateData`
built at drag-end from the final session (carrying position and stackOrder);
every mousemove and the mousedown issue none. -/
theorem drag_session_exactly_one_write (w : NoteWidget) (rect cursorPos : Position)
    (moves : List Position) (z : Int) (storeOk : Bool) :
    (runDragSession w rect cursorPos moves z storeOk).2.2 =
      [mouseupWrite (runMoves (mousedown w rect cursorPos z).1 moves).1] ∧
    (∀ (s : DragSession) (c : Position), (mousemove s c).2 = []) ∧
    (∀ (w2 : NoteWidget) (r2 c2 : Position) (z2 : Int),
      (mousedown w2 r2 c2 z2).2.2 = []) := by
  refine ⟨?_, fun s c => rfl, fun _ _ _ _ => rfl⟩
  simp only [runDragSession, mouseup, runMoves_writes, List.nil_append,
    List.append_nil]
  rfl

/-- **C8**: the mouseup listener always returns the drag machine to Idle
(`note.dom = null` runs unconditionally, after the `try`/`catch`): whether
or not a drag was in progress and whether or not the store write succeeds,
the resulting drag state is `none`; hence every full drag session ends
Idle. -/
theorem mouseup_always_returns_to_idle (drag : Option DragSession) (storeOk : Bool) :
    (mouseup drag storeOk).1 = none ∧
    (∀ (w : NoteWidget) (rect cursorPos : Position) (moves : List Position)
        (z : Int) (ok : Bool),
      (runDragSession w rect cursorPos moves z ok).1 = none) := by
  refine ⟨?_, fun w rect cursorPos moves z ok => rfl⟩
  cases drag <;> rfl

/-! ## Delete, create, edit and startup (C1, C5, C7, C9, C10) -/

/-- **C1** counterexample: after `createNote("#ff0000")` succeeds, a delete
of note 1 whose `deleteData` call fails leaves the widget in the document
(`note.remove()` sits after the `await` inside the `try`, so it never
runs on failure): the DOM is unchanged and still holds the widget with the
deleted id — the removal is not optimistic and the widget does not
disappear. -/
theorem deleteNote_failure_keeps_widget_cex :
    (deleteClick (createNote app0 "#ff0000" true) 1 false).dom =
      [createdWidget app0 "#ff0000" true] ∧
    (createdWidget app0 "#ff0000" true).domId = some 1 ∧
    (deleteClick (createNote app0 "#ff0000" true) 1 false).dom ≠ [] := by
  refine ⟨rfl, rfl, ?_⟩
  decide

/-- **C1** (amended): the DOM removal in the delete handler is gated on the
store outcome, not optimistic: on `deleteData` success the widget with the
parsed id is removed from the document and the record from the store; on
failure the handler catches the error (nothing propagates) and leaves both
the document and the store exactly as they were — so no rollback is ever
needed. -/
theorem deleteNote_removal_gated_on_store (st : AppState) (noteId : Nat) :
    (deleteClick st noteId true).dom =
      st.dom.filter (fun w => w.domId ≠ some noteId) ∧
    (deleteClick st noteId true).store = st.store.deleteData noteId ∧
    deleteClick st noteId false = st := by
  exact ⟨rfl, rfl, rfl⟩

/-- **C5**: a successful `createNote(color)` persists exactly the record
`{position: (0,0), text: "", color, zIndex: current counter}` under the
store-assigned id, assigns that id to the widget, and increments the
counter by exactly 1; in particular `createNote("#ff0000")` on the empty
store followed by `readAllData()` yields exactly one record, with color
"#ff0000", empty text and position (0,0). -/
theorem createNote_persists_record_and_increments (st : AppState) (color : String) :
    (createNote st color true).store.records =
      st.store.records ++
        [{ id := st.store.nextId, position := { x := 0, y := 0 }
           zIndex := st.zIndexValue, color := color, text := "" }] ∧
    (createdWidget st color true).domId = some st.store.nextId ∧
    (createNote st color true).zIndexValue = st.zIndexValue + 1 ∧
    (createNote app0 "#ff0000" true).store.readAllData =
      [{ id := 1, position := { x := 0, y := 0 }, zIndex := 1
         color := "#ff0000", text := "" }] := by
  exact ⟨rfl, rfl, rfl, rfl⟩

/-- **C7** counterexample: even with the store unavailable (every store call
failing), the note-creation intent still proceeds: the widget is appended
to the document while nothing is persisted — the app does not refuse to
proceed. -/
theorem open_failure_app_still_proceeds_cex :
    (createNote app0 "#ff0000" false).dom ≠ [] ∧
    (createNote app0 "#ff0000" false).store.readAllData = [] := by
  refine ⟨?_, rfl⟩
  decide

/-- **C7** (amended): an `open()` failure at startup is surfaced to the
caller — `initDatabase` has no `try`/`catch` around the `await
databaseManager.open()`, so the error propagates out (and the top-level
call site does not catch it either) and the notes are never loaded; but
the app does not refuse to proceed: the intent handlers stay installed and
a createNote intent still appends its widget to the document, persisting
nothing. -/
theorem open_failure_propagates (e : StoreError)
    (readResult : Except StoreError (List RawNote)) (z : Int) :
    initDatabase (.error e) readResult z = .error e ∧
    (∀ (st : AppState) (color : String),
      (createNote st color false).dom = st.dom ++ [createdWidget st color false] ∧
      (createNote st color false).store = st.store) := by
  exact ⟨rfl, fun st color => ⟨rfl, rfl⟩⟩

/-- **C9**: when `createData` fails inside the create listener, the
`zIndexValue++` line is never reached — the counter is unchanged, the store
is unchanged, and the widget is appended with no id assigned; the next
successful `createNote` is then assigned exactly the stackOrder value the
failed call had put in its record. -/
theorem failed_create_skips_increment (st : AppState) (c1 c2 : String) :
    (createNote st c1 false).zIndexValue = st.zIndexValue ∧
    (createNote st c1 false).store = st.store ∧
    (createNote st c1 false).dom = st.dom ++ [createdWidget st c1 false] ∧
    (createdWidget st c1 false).domId = none ∧
    (buildNoteData st.zIndexValue c1).zIndex = st.zIndexValue ∧
    (createdWidget (createNote st c1 false) c2 true).styleZIndex =
      some st.zIndexValue := by
  exact ⟨rfl, rfl, rfl, rfl, rfl, rfl⟩

/-- **C10**: the input listener issues an update whose payload carries only
the `text` field; under the adapter's merge semantics the target record
keeps its id, position, stackOrder and color and only its text changes,
every other record is untouched, and the id counter is unchanged. -/
theorem editText_changes_only_text (st : AppState) (noteId : Nat) (text : String) :
    textUpdateFields text =
      { position := none, zIndex := none, color := none, text := some text } ∧
    (inputHandler st noteId text true).store.records =
      st.store.records.map
        (fun r => if r.id = noteId then { r with text := text } else r) ∧
    (inputHandler st noteId text true).store.nextId = st.store.nextId := by
  exact ⟨rfl, rfl, rfl⟩

/-! ## Stacking order and id allocation across a session (C3) -/

/-- An intent that reports an assigned stackOrder got exactly the current
counter value, and left the counter incremented by one. -/
lemma traceStep_z_assigned (st : AppState) (op : Op) (a : Int)
    (h : (traceStep st op).2.1 = some a) :
    a = st.zIndexValue ∧
    (traceStep st op).1.zIndexValue = st.zIndexValue + 1 := by
  cases op with
  | create color succeed =>
      cases succeed with
      | false =>
          have h2 : (none : Option Int) = some a := h
          cases h2
      | true =>
          have h2 : (some st.zIndexValue : Option Int) = some a := h
          injection h2 with h3
          subst h3
          exact ⟨rfl, rfl⟩
  | bringToFront w rect cursorPos =>
      have h2 : (some st.zIndexValue : Option Int) = some a := h
      injection h2 with h3
      subst h3
      exact ⟨rfl, rfl⟩

/-- The counter never decreases across an intent. -/
lemma traceStep_z_mono (st : AppState) (op : Op) :
    st.zIndexValue ≤ (traceStep st op).1.zIndexValue := by
  cases op with
  | create color succeed =>
      cases succeed with
      | false => exact le_refl _
      | true =>
          show st.zIndexValue ≤ st.zIndexValue + 1
          omega
  | bringToFront w rect cursorPos =>
      show st.zIndexValue ≤ st.zIndexValue + 1
      omega

/-- An intent that reports an assigned id got exactly the store's next
auto-increment key, and left that key incremented by one. -/
lemma traceStep_id_assigned (st : AppState) (op : Op) (p : Nat)
    (h : (traceStep st op).2.2 = some p) :
    p = st.store.nextId ∧
    (traceStep st op).1.store.nextId = st.store.nextId + 1 := by
  cases op with
  | create color succeed =>
      cases succeed with
      | false =>
          have h2 : (none : Option Nat) = some p := h
          cases h2
      | true =>
          have h2 : (some st.store.nextId : Option Nat) = some p := h
          injection h2 with h3
          subst h3
          exact ⟨rfl, rfl⟩
  | bringToFront w rect cursorPos =>
      have h2 : (none : Option Nat) = some p := h
      cases h2

/-- The auto-increment key never decreases across an intent. -/
lemma traceStep_id_mono (st : AppState) (op : Op) :
    st.store.nextId ≤ (traceStep st op).1.store.nextId := by
  cases op with
  | create color succeed =>
      cases succeed with
      | false => exact le_refl _
      | true =>
          show st.store.nextId ≤ st.store.nextId + 1
          omega
  | bringToFront w rect cursorPos => exact le_refl _

/-- Every stackOrder assigned along a trace is at least the starting
counter value. -/
lemma runTrace_z_lb (ops : List Op) :
    ∀ (st : AppState) (k : Nat) (hk : k < (runTrace st ops).length) (a : Int),
      ((runTrace st ops).get ⟨k, hk⟩).1 = some a → st.zIndexValue ≤ a := by
  induction ops with
  | nil =>
      intro st k hk a h
      exact absurd hk (by simp [runTrace])
  | cons op ops ih =>
      intro st k hk a h
      cases k with
      | zero =>
          have h0 : (traceStep st op).2.1 = some a := h
          exact le_of_eq (traceStep_z_assigned st op a h0).1.symm
      | succ k =>
          have hk2 : k < (runTrace (traceStep st op).1 ops).length := by
            have hlen : (runTrace st (op :: ops)).length
                = (runTrace (traceStep st op).1 ops).length + 1 := rfl
            omega
          have h2 : ((runTrace (traceStep st op).1 ops).get ⟨k, hk2⟩).1 = some a := h
          exact le_trans (traceStep_z_mono st op) (ih _ k hk2 a h2)

/-- Every id assigned along a trace is at least the starting
auto-increment key. -/
lemma runTrace_id_lb (ops : List Op) :
    ∀ (st : AppState) (k : Nat) (hk : k < (runTrace st ops).length) (p : Nat),
      ((runTrace st ops).get ⟨k, hk⟩).2 = some p → st.store.nextId ≤ p := by
  induction ops with
  | nil =>
      intro st k hk p h
      exact absurd hk (by simp [runTrace])
  | cons op ops ih =>
      intro st k hk p h
      cases k with
      | zero =>
          have h0 : (traceStep st op).2.2 = some p := h
          exact le_of_eq (traceStep_id_assigned st op p h0).1.symm
      | succ k =>
          have hk2 : k < (runTrace (traceStep st op).1 ops).length := by
            have hlen : (runTrace st (op :: ops)).length
                = (runTrace (traceStep st op).1 ops).length + 1 := rfl
            omega
          have h2 : ((runTrace (traceStep st op).1 ops).get ⟨k, hk2⟩).2 = some p := h
          exact le_trans (traceStep_id_mono st op) (ih _ k hk2 p h2)

/-- Along any trace, a stackOrder assigned later is strictly greater. -/
lemma runTrace_z_strict (ops : List Op) :
    ∀ (st : AppState) (i j : Nat) (hi : i < (runTrace st ops).length)
      (hj : j < (runTrace st ops).length) (a b : Int), i < j →
      ((runTrace st ops).get ⟨i, hi⟩).1 = some a →
      ((runTrace st ops).get ⟨j, hj⟩).1 = some b → a < b := by
  induction ops with
  | nil =>
      intro st i j hi
      exact absurd hi (by simp [runTrace])
  | cons op ops ih =>
      intro st i j hi hj a b hij ha hb
      cases j with
      | zero => omega
      | succ j =>
          have hj2 : j < (runTrace (traceStep st op).1 ops).length := by
            have hlen : (runTrace st (op :: ops)).length
                = (runTrace (traceStep st op).1 ops).length + 1 := rfl
            omega
          have hb2 : ((runTrace (traceStep st op).1 ops).get ⟨j, hj2⟩).1 = some b := hb
          cases i with
          | zero =>
              have ha0 : (traceStep st op).2.1 = some a := ha
              obtain ⟨haz, hstep⟩ := traceStep_z_assigned st op a ha0
              have hlb := runTrace_z_lb ops (traceStep st op).1 j hj2 b hb2
              omega
          | succ i =>
              have hi2 : i < (runTrace (traceStep st op).1 ops).length := by
                have hlen : (runTrace st (op :: ops)).length
                    = (runTrace (traceStep st op).1 ops).length + 1 := rfl
                omega
              have ha2 : ((runTrace (traceStep st op).1 ops).get ⟨i, hi2⟩).1 = some a := ha
              exact ih _ i j hi2 hj2 a b (by omega) ha2 hb2

/-- Along any trace, an id assigned later is strictly greater. -/
lemma runTrace_id_strict (ops : List Op) :
    ∀ (st : AppState) (i j : Nat) (hi : i < (runTrace st ops).length)
      (hj : j < (runTrace st ops).length) (p q : Nat), i < j →
      ((runTrace st ops).get ⟨i, hi⟩).2 = some p →
      ((runTrace st ops).get ⟨j, hj⟩).2 = some q → p < q := by
  induction ops with
  | nil =>
      intro st i j hi
      exact absurd hi (by simp [runTrace])
  | cons op ops ih =>
      intro st i j hi hj p q hij hp hq
      cases j with
      | zero => omega
      | succ j =>
          have hj2 : j < (runTrace (traceStep st op).1 ops).length := by
            have hlen : (runTrace st (op :: ops)).length
                = (runTrace (traceStep st op).1 ops).length + 1 := rfl
            omega
          have hq2 : ((runTrace (traceStep st op).1 ops).get ⟨j, hj2⟩).2 = some q := hq
          cases i with
          | zero =>
              have hp0 : (traceStep st op).2.2 = some p := hp
              obtain ⟨hpz, hstep⟩ := traceStep_id_assigned st op p hp0
              have hlb := runTrace_id_lb ops (traceStep st op).1 j hj2 q hq2
              omega
          | succ i =>
              have hi2 : i < (runTrace (traceStep st op).1 ops).length := by
                have hlen : (runTrace st (op :: ops)).length
                    = (runTrace (traceStep st op).1 ops).length + 1 := rfl
                omega
              have hp2 : ((runTrace (traceStep st op).1 ops).get ⟨i, hi2⟩).2 = some p := hp
              exact ih _ i j hi2 hj2 p q (by omega) hp2 hq2

/-- **C3**: across every sequence of createNote and bringToFront
(drag-start) intents in one session starting from the initial state, any
later intent's assigned stackOrder is strictly greater than any earlier
intent's, and the ids assigned to created notes are pairwise distinct (a
failed create assigns neither a stackOrder nor an id, reported `none`). -/
theorem later_stackOrder_greater_ids_distinct (ops : List Op) (i j : Nat)
    (a b : Int) (p q : Nat) (hij : i < j)
    (hi : i < (runTrace app0 ops).length)
    (hj : j < (runTrace app0 ops).length) :
    (((runTrace app0 ops).get ⟨i, hi⟩).1 = some a →
      ((runTrace app0 ops).get ⟨j, hj⟩).1 = some b → a < b) ∧
    (((runTrace app0 ops).get ⟨i, hi⟩).2 = some p →
      ((runTrace app0 ops).get ⟨j, hj⟩).2 = some q → p ≠ q) := by
  constructor
  · intro ha hb
    exact runTrace_z_strict ops app0 i j hi hj a b hij ha hb
  · intro hp hq
    have hpq := runTrace_id_strict ops app0 i j hi hj p q hij hp hq
    omega

/-- **C3** witness: two successful creates from the initial state assign
stackOrders 1 then 2 (strictly increasing) and ids 1 then 2 (distinct). -/
theorem later_stackOrder_greater_ids_distinct_witness :
    (((runTrace app0 [Op.create "#ff0000" true, Op.create "#00ff00" true]).get
        ⟨0, by decide⟩).1 = some 1 →
      ((runTrace app0 [Op.create "#ff0000" true, Op.create "#00ff00" true]).get
        ⟨1, by decide⟩).1 = some 2 → (1 : Int) < 2) ∧
    (((runTrace app0 [Op.create "#ff0000" true, Op.create "#00ff00" true]).get
        ⟨0, by decide⟩).2 = some 1 →
      ((runTrace app0 [Op.create "#ff0000" true, Op.create "#00ff00" true]).get
        ⟨1, by decide⟩).2 = some 2 → (1 : Nat) ≠ 2) :=
  later_stackOrder_greater_ids_distinct
    [Op.create "#ff0000" true, Op.create "#00ff00" true]
    0 1 1 2 1 2 (by decide) (by decide) (by decide)
